import Mathlib

/-!
Verification development for the Piano LED Visualizer backend
(`backend/led_controller.py`, `backend/midi_processor.py`, `backend/app.py`).

Python floats are modelled by exact rationals (`ℚ`), Python `int()`
truncation by `pyInt`, RGB tuples by integer triples, Python dicts by
insertion-ordered association lists with replace-in-place update
(`dictInsert` / `dictLookup`), and `time.time()` by an explicit rational
parameter threaded through the stateful operations.
-/

/-- Python `int()` truncation toward zero, on exact rationals. -/
def pyInt (q : ℚ) : ℤ := if q < 0 then -(Int.floor (-q)) else Int.floor q

/-- An RGB color triple (`Tuple[int, int, int]`). -/
abbrev Color := ℤ × ℤ × ℤ

@[simp] theorem pyInt_zero : pyInt 0 = 0 := by norm_num [pyInt]

@[simp] theorem pyInt_255 : pyInt 255 = 255 := by norm_num [pyInt]

/-- Channel-wise `int()` truncation of a rational triple. -/
def pyTriple (t : ℚ × ℚ × ℚ) : Color := (pyInt t.1, pyInt t.2.1, pyInt t.2.2)

/-- `colorsys.hsv_to_rgb` from the Python standard library, as used by the
rainbow scheme. -/
def hsv_to_rgb (h s v : ℚ) : ℚ × ℚ × ℚ :=
  if s = 0 then (v, v, v)
  else
    let i : ℤ := pyInt (h * 6)
    let f : ℚ := h * 6 - (i : ℚ)
    let p := v * (1 - s)
    let q := v * (1 - s * f)
    let t := v * (1 - s * (1 - f))
    let i := i % 6
    if i = 0 then (v, t, p)
    else if i = 1 then (q, v, p)
    else if i = 2 then (p, v, t)
    else if i = 3 then (p, q, v)
    else if i = 4 then (t, p, q)
    else (v, p, q)

/-- `ColorManager._rainbow_scheme`. -/
def _rainbow_scheme (note velocity : ℤ) : Color :=
  let hue : ℚ := ((note : ℚ) - 21) / 87
  let rgb := hsv_to_rgb hue 1 ((velocity : ℚ) / 127)
  (pyInt (rgb.1 * 255), pyInt (rgb.2.1 * 255), pyInt (rgb.2.2 * 255))

/-- `ColorManager._velocity_scheme`: blue→cyan below the midpoint,
cyan→red above it. -/
def _velocity_scheme (note velocity : ℤ) : Color :=
  let velocity_norm : ℚ := (velocity : ℚ) / 127
  if velocity_norm < 1/2 then
    let factor := velocity_norm * 2
    (0, pyInt (factor * 255), 255)
  else
    let factor := (velocity_norm - 1/2) * 2
    (pyInt (factor * 255), pyInt ((1 - factor) * 255), pyInt ((1 - factor) * 255))

/-- The velocity scheme's channel formulas before `int()` truncation, as a
function of the normalized velocity `velocity / 127`. -/
def velocity_scheme_q (velocity_norm : ℚ) : ℚ × ℚ × ℚ :=
  if velocity_norm < 1/2 then
    let factor := velocity_norm * 2
    (0, factor * 255, 255)
  else
    let factor := (velocity_norm - 1/2) * 2
    (factor * 255, (1 - factor) * 255, (1 - factor) * 255)

/-- The fixed 12-entry palette of `ColorManager._note_based_scheme`. -/
def note_colors (note_class : ℤ) : Color :=
  if note_class = 0 then (255, 0, 0)
  else if note_class = 1 then (255, 127, 0)
  else if note_class = 2 then (255, 165, 0)
  else if note_class = 3 then (255, 215, 0)
  else if note_class = 4 then (255, 255, 0)
  else if note_class = 5 then (127, 255, 0)
  else if note_class = 6 then (0, 255, 0)
  else if note_class = 7 then (0, 255, 127)
  else if note_class = 8 then (0, 255, 255)
  else if note_class = 9 then (0, 127, 255)
  else if note_class = 10 then (0, 0, 255)
  else (127, 0, 255)

/-- `ColorManager._note_based_scheme`. -/
def _note_based_scheme (note velocity : ℤ) : Color :=
  let base_color := note_colors (note % 12)
  let velocity_factor : ℚ := (velocity : ℚ) / 127
  (pyInt ((base_color.1 : ℚ) * velocity_factor),
   pyInt ((base_color.2.1 : ℚ) * velocity_factor),
   pyInt ((base_color.2.2 : ℚ) * velocity_factor))

/-- `ColorManager._white_keys_scheme`. -/
def _white_keys_scheme (note velocity : ℤ) : Color :=
  let note_class := note % 12
  let velocity_factor : ℚ := (velocity : ℚ) / 127
  if note_class = 1 ∨ note_class = 3 ∨ note_class = 6 ∨ note_class = 8 ∨ note_class = 10 then
    (0, 0, pyInt (255 * velocity_factor))
  else
    let intensity := pyInt (255 * velocity_factor)
    (intensity, intensity, intensity)

/-- `ColorManager._fire_scheme`: three velocity segments with breakpoints at
normalized velocity 0.3 and 0.7. -/
def _fire_scheme (note velocity : ℤ) : Color :=
  let velocity_norm : ℚ := (velocity : ℚ) / 127
  if velocity_norm < 3/10 then
    (pyInt (139 * velocity_norm / (3/10)), 0, 0)
  else if velocity_norm < 7/10 then
    let factor := (velocity_norm - 3/10) / (4/10)
    (255, pyInt (165 * factor), 0)
  else
    let factor := (velocity_norm - 7/10) / (3/10)
    (255, pyInt (165 + 90 * factor), pyInt (255 * factor))

/-- The fire scheme's channel formulas before `int()` truncation. -/
def fire_scheme_q (velocity_norm : ℚ) : ℚ × ℚ × ℚ :=
  if velocity_norm < 3/10 then
    (139 * velocity_norm / (3/10), 0, 0)
  else if velocity_norm < 7/10 then
    let factor := (velocity_norm - 3/10) / (4/10)
    (255, 165 * factor, 0)
  else
    let factor := (velocity_norm - 7/10) / (3/10)
    (255, 165 + 90 * factor, 255 * factor)

/-- `ColorManager._ocean_scheme`: three velocity segments with breakpoints at
normalized velocity 0.4 and 0.8. -/
def _ocean_scheme (note velocity : ℤ) : Color :=
  let velocity_norm : ℚ := (velocity : ℚ) / 127
  if velocity_norm < 4/10 then
    let intensity := velocity_norm / (4/10)
    (0, 0, pyInt (139 * intensity))
  else if velocity_norm < 8/10 then
    let factor := (velocity_norm - 4/10) / (4/10)
    (0, pyInt (255 * factor), 255)
  else
    let factor := (velocity_norm - 8/10) / (2/10)
    let blue_green := pyInt (255 - 55 * factor)
    (pyInt (255 * factor), blue_green, blue_green)

/-- The ocean scheme's channel formulas before `int()` truncation. -/
def ocean_scheme_q (velocity_norm : ℚ) : ℚ × ℚ × ℚ :=
  if velocity_norm < 4/10 then
    let intensity := velocity_norm / (4/10)
    (0, 0, 139 * intensity)
  else if velocity_norm < 8/10 then
    let factor := (velocity_norm - 4/10) / (4/10)
    (0, 255 * factor, 255)
  else
    let factor := (velocity_norm - 8/10) / (2/10)
    let blue_green := 255 - 55 * factor
    (255 * factor, blue_green, blue_green)

/-- `ColorManager.get_color`: dispatch on the current scheme name, falling
back to the velocity scheme for unknown names. -/
def get_color (current_scheme : String) (note velocity : ℤ) : Color :=
  if current_scheme = "rainbow" then _rainbow_scheme note velocity
  else if current_scheme = "velocity" then _velocity_scheme note velocity
  else if current_scheme = "note_based" then _note_based_scheme note velocity
  else if current_scheme = "white_keys" then _white_keys_scheme note velocity
  else if current_scheme = "fire" then _fire_scheme note velocity
  else if current_scheme = "ocean" then _ocean_scheme note velocity
  else _velocity_scheme note velocity

/-- One entry of `LEDAnimator.active_animations` (the per-note animation
dict value built by `add_fade_out`). -/
structure AnimData where
  type : String
  led_index : ℤ
  start_color : Color
  start_time : ℚ
  duration : ℚ
deriving DecidableEq

/-- `LEDAnimator.active_animations`: a Python dict keyed by MIDI note,
modelled as an insertion-ordered association list. -/
abbrev AnimTable := List (ℤ × AnimData)

/-- Python dict assignment `d[k] = v`: replace in place when the key is
present, append otherwise. -/
def dictInsert {β : Type} (k : ℤ) (v : β) : List (ℤ × β) → List (ℤ × β)
  | [] => [(k, v)]
  | (k', v') :: rest => if k' = k then (k, v) :: rest else (k', v') :: dictInsert k v rest

/-- Python dict lookup `d[k]` (as an option). -/
def dictLookup {β : Type} (k : ℤ) : List (ℤ × β) → Option β
  | [] => none
  | (k', v') :: rest => if k' = k then some v' else dictLookup k rest

/-- `LEDAnimator.add_fade_out`: store a fade-out record under the NOTE key
(`self.active_animations[note] = {...}`); `now` stands for `time.time()`. -/
def add_fade_out (note led_index : ℤ) (initial_color : Color) (fade_time now : ℚ)
    (anims : AnimTable) : AnimTable :=
  dictInsert note
    { type := "fade_out", led_index := led_index, start_color := initial_color,
      start_time := now, duration := fade_time } anims

/-- `LEDAnimator.remove_animation`: delete the note's entry when present. -/
def remove_animation (note : ℤ) (anims : AnimTable) : AnimTable :=
  anims.filter (fun p => p.1 != note)

/-- `tuple(int(c * factor) for c in start_color)`. -/
def scaleColor (factor : ℚ) (c : Color) : Color :=
  (pyInt ((c.1 : ℚ) * factor), pyInt ((c.2.1 : ℚ) * factor), pyInt ((c.2.2 : ℚ) * factor))

/-- The iteration of `LEDAnimator.get_current_colors` over the animation
dict: builds the output color dict and the list of completed notes. -/
def gccLoop (current_time : ℚ) (acc : List (ℤ × Color)) (toRemove : List ℤ) :
    AnimTable → List (ℤ × Color) × List ℤ
  | [] => (acc, toRemove)
  | (note, a) :: rest =>
    if a.type = "fade_out" then
      let elapsed := current_time - a.start_time
      let progress := elapsed / a.duration
      if 1 ≤ progress then
        gccLoop current_time (dictInsert a.led_index (0, 0, 0) acc) (toRemove ++ [note]) rest
      else
        let factor := 1 - progress
        gccLoop current_time (dictInsert a.led_index (scaleColor factor a.start_color) acc)
          toRemove rest
    else gccLoop current_time acc toRemove rest

/-- `LEDAnimator.get_current_colors` (the render `tick()`): returns the
per-LED color dict for this frame and the animation table after completed
animations have been deleted. -/
def get_current_colors (current_time : ℚ) (anims : AnimTable) :
    List (ℤ × Color) × AnimTable :=
  let r := gccLoop current_time [] [] anims
  (r.1, anims.filter (fun p => !(r.2.contains p.1)))

/-- The mutable state of `LEDController` (configuration, scheme, animator
table and the `current_led_state` display array). -/
structure LEDController where
  num_leds : ℕ
  brightness : ℚ
  current_scheme : String
  is_initialized : Bool
  active_animations : AnimTable
  current_led_state : List Color
deriving DecidableEq

/-- `LEDController._create_note_to_led_mapping`: MIDI notes 21..108 map
linearly to LED indices 0..87, truncated to the strip length. -/
def note_to_led_map (num_leds : ℕ) (note : ℤ) : Option ℤ :=
  if 21 ≤ note ∧ note ≤ 108 ∧ note - 21 < (num_leds : ℤ) then some (note - 21) else none

/-- `LEDController._set_led_color`: bounds-checked write into
`current_led_state`. -/
def set_led_color (c : LEDController) (led_index : ℤ) (color : Color) : LEDController :=
  if led_index < 0 ∨ (c.num_leds : ℤ) ≤ led_index then c
  else { c with current_led_state := c.current_led_state.set led_index.toNat color }

/-- `LEDController.note_on`: guard on initialization and mapping, cancel the
note's animation, write the scheme color immediately. -/
def note_on (c : LEDController) (note velocity : ℤ) : LEDController × Bool :=
  if c.is_initialized = false then (c, false)
  else
    match note_to_led_map c.num_leds note with
    | none => (c, false)
    | some led_index =>
      let color := get_color c.current_scheme note velocity
      let c1 := { c with active_animations := remove_animation note c.active_animations }
      (set_led_color c1 led_index color, true)

/-- `LEDController.note_off`: guard on initialization and mapping, read the
CURRENT display color at the mapped LED, then either register a fade-out
(`fade_time > 0`) or write black immediately. -/
def note_off (c : LEDController) (note : ℤ) (fade_time now : ℚ) : LEDController × Bool :=
  if c.is_initialized = false then (c, false)
  else
    match note_to_led_map c.num_leds note with
    | none => (c, false)
    | some led_index =>
      let current_color := c.current_led_state.getD led_index.toNat (0, 0, 0)
      if 0 < fade_time then
        ({ c with active_animations :=
            add_fade_out note led_index current_color fade_time now c.active_animations }, true)
      else
        (set_led_color c led_index (0, 0, 0), true)

/-- `LEDController.set_brightness`: `brightness = max(0.0, min(1.0, brightness))`
then store it. -/
def set_brightness (c : LEDController) (brightness : ℚ) : LEDController :=
  { c with brightness := max 0 (min 1 brightness) }

/-- `MIDIEvent` from `midi_processor.py`. -/
structure MIDIEvent where
  type : String
  note : Option ℤ
  velocity : Option ℤ
  channel : ℤ
  timestamp : ℚ
  control : Option ℤ
  value : Option ℤ
deriving DecidableEq

/-- `MIDIInputHandler._midi_callback`: decode a raw MIDI message into the
canonical event (note on / note off / control change), normalizing a
velocity-0 Note On to a `note_off` event. -/
def midi_callback (midi_bytes : List ℕ) (current_time : ℚ) : Option MIDIEvent :=
  if midi_bytes.length < 2 then none
  else
    let status_byte := midi_bytes.getD 0 0
    let message_type := status_byte &&& 0xF0
    let channel : ℤ := (status_byte &&& 0x0F : ℕ)
    if message_type = 0x90 then
      let note : ℤ := (midi_bytes.getD 1 0 : ℕ)
      let velocity : ℤ := if 2 < midi_bytes.length then (midi_bytes.getD 2 0 : ℕ) else 64
      if 0 < velocity then
        some { type := "note_on", note := some note, velocity := some velocity,
               channel := channel, timestamp := current_time, control := none, value := none }
      else
        some { type := "note_off", note := some note, velocity := none,
               channel := channel, timestamp := current_time, control := none, value := none }
    else if message_type = 0x80 then
      some { type := "note_off", note := some ((midi_bytes.getD 1 0 : ℕ) : ℤ), velocity := none,
             channel := channel, timestamp := current_time, control := none, value := none }
    else if message_type = 0xB0 then
      some { type := "control_change", note := none, velocity := none,
             channel := channel, timestamp := current_time,
             control := some ((midi_bytes.getD 1 0 : ℕ) : ℤ),
             value := some (if 2 < midi_bytes.length then ((midi_bytes.getD 2 0 : ℕ) : ℤ) else 0) }
    else none

/-- `MIDIInputHandler.simulate_note_on`: builds a `note_on` event with the
velocity given, with NO velocity-0 normalization. -/
def simulate_note_on (note velocity channel : ℤ) (now : ℚ) : MIDIEvent :=
  { type := "note_on", note := some note, velocity := some velocity,
    channel := channel, timestamp := now, control := none, value := none }

/-- `MIDIInputHandler.simulate_note_off`. -/
def simulate_note_off (note channel : ℤ) (now : ℚ) : MIDIEvent :=
  { type := "note_off", note := some note, velocity := none,
    channel := channel, timestamp := now, control := none, value := none }

/-- The payload `app.handle_midi_event` emits over SocketIO. -/
structure SocketMessage where
  type : String
  note : Option ℤ
  velocity : Option ℤ
  timestamp : ℚ
deriving DecidableEq

/-- Python's `event.velocity or 64`: `None` and 0 are falsy. -/
def pyOr64 (v : Option ℤ) : ℤ :=
  match v with
  | none => 64
  | some x => if x = 0 then 64 else x

/-- `app.handle_midi_event`: route the event to the LED controller when it
is present and initialized, then unconditionally emit the event payload to
the SocketIO broadcast (`note_off` uses the default 0.5s fade). -/
def handle_midi_event (led_controller : Option LEDController) (event : MIDIEvent)
    (now : ℚ) : Option LEDController × List SocketMessage :=
  let led_controller :=
    match led_controller with
    | none => none
    | some c =>
      if c.is_initialized then
        if event.type = "note_on" ∧ event.note ≠ none then
          some (note_on c (event.note.getD 0) (pyOr64 event.velocity)).1
        else if event.type = "note_off" ∧ event.note ≠ none then
          some (note_off c (event.note.getD 0) (1/2) now).1
        else some c
      else some c
  (led_controller,
   [{ type := event.type, note := event.note, velocity := event.velocity,
      timestamp := event.timestamp }])

/-- A concrete initialized controller in the default configuration
(88 LEDs, brightness 0.8, velocity scheme), used to instantiate theorems. -/
def testController : LEDController :=
  { num_leds := 88, brightness := 4/5, current_scheme := "velocity", is_initialized := true,
    active_animations := [], current_led_state := List.replicate 88 (0, 0, 0) }

/-- A concrete controller that has never been initialized. -/
def uninitController : LEDController :=
  { testController with is_initialized := false }

/-- A concrete initialized controller whose display state holds a
non-black color at LED 39 (the slot of MIDI note 60). -/
def displayController : LEDController :=
  { testController with
    current_scheme := "fire"
    current_led_state := (List.replicate 88 ((0 : ℤ), (0 : ℤ), (0 : ℤ))).set 39 (12, 34, 56) }

theorem dictLookup_dictInsert_self {β : Type} (k : ℤ) (v : β) (l : List (ℤ × β)) :
    dictLookup k (dictInsert k v l) = some v := by
  induction l with
  | nil => simp [dictInsert, dictLookup]
  | cons hd tl ih =>
    obtain ⟨k', v'⟩ := hd
    by_cases hk : k' = k
    · subst hk
      simp [dictInsert, dictLookup]
    · simp [dictInsert, dictLookup, hk, ih]

theorem dictLookup_dictInsert_ne {β : Type} (k k2 : ℤ) (hne : k2 ≠ k) (v : β)
    (l : List (ℤ × β)) : dictLookup k2 (dictInsert k v l) = dictLookup k2 l := by
  induction l with
  | nil => simp [dictInsert, dictLookup, Ne.symm hne]
  | cons hd tl ih =>
    obtain ⟨k', v'⟩ := hd
    by_cases hk : k' = k
    · subst hk
      simp [dictInsert, dictLookup, hne, Ne.symm hne]
    · simp only [dictInsert, if_neg hk]
      by_cases hk2 : k' = k2
      · subst hk2
        simp [dictLookup]
      · simp [dictLookup, hk2, ih]

theorem note_to_led_map_bounds {num_leds : ℕ} {note led : ℤ}
    (h : note_to_led_map num_leds note = some led) :
    0 ≤ led ∧ led < (num_leds : ℤ) ∧ led = note - 21 := by
  by_cases hc : 21 ≤ note ∧ note ≤ 108 ∧ note - 21 < (num_leds : ℤ)
  · rw [note_to_led_map, if_pos hc] at h
    injection h with h'
    obtain ⟨h1, h2, h3⟩ := hc
    omega
  · rw [note_to_led_map, if_neg hc] at h
    exact absurd h (by simp)

theorem note_to_led_map_inj {num_leds : ℕ} {n1 n2 led : ℤ}
    (h1 : note_to_led_map num_leds n1 = some led)
    (h2 : note_to_led_map num_leds n2 = some led) : n1 = n2 := by
  have b1 := note_to_led_map_bounds h1
  have b2 := note_to_led_map_bounds h2
  omega

theorem gccLoop_no_removals (t : ℚ) (l : AnimTable)
    (h : ∀ p ∈ l, p.2.type = "fade_out" → (t - p.2.start_time) / p.2.duration < 1) :
    ∀ acc rem, (gccLoop t acc rem l).2 = rem := by
  induction l with
  | nil => intro acc rem; rfl
  | cons hd tl ih =>
    intro acc rem
    obtain ⟨note, a⟩ := hd
    by_cases hk : a.type = "fade_out"
    · have hp : ¬ (1 ≤ (t - a.start_time) / a.duration) :=
        not_le.mpr (h (note, a) (List.mem_cons_self _ _) hk)
      simp only [gccLoop, if_pos hk, if_neg hp]
      exact ih (fun p hp' hk' => h p (List.mem_cons_of_mem _ hp') hk') _ _
    · simp only [gccLoop, if_neg hk]
      exact ih (fun p hp' hk' => h p (List.mem_cons_of_mem _ hp') hk') _ _

theorem filter_not_contains_nil (l : AnimTable) :
    l.filter (fun p => !(([] : List ℤ).contains p.1)) = l := by
  induction l with
  | nil => rfl
  | cons hd tl ih => simp [List.filter, ih, List.contains]

/-- A one-entry animation table holding an in-progress fade registered for
note 60 at LED 5 (start time 0, duration 1). -/
def tableC5 : AnimTable :=
  [(60, { type := "fade_out", led_index := 5, start_color := (255, 0, 0),
          start_time := 0, duration := 1 })]

/-- C1 counterexample: the animation table is keyed by NOTE, so registering
fades for two different notes that target the same LED position 5 leaves TWO
animation entries for that one position, and the first note's animation is
still present after the second registration. -/
theorem two_notes_one_position_counterexample :
    (add_fade_out 61 5 (0, 0, 255) 1 0 (add_fade_out 60 5 (255, 0, 0) 1 0 [])).map
        (fun p => p.2.led_index) = [5, 5] ∧
    dictLookup 60 (add_fade_out 61 5 (0, 0, 255) 1 0 (add_fade_out 60 5 (255, 0, 0) 1 0 [])) =
      some { type := "fade_out", led_index := 5, start_color := (255, 0, 0),
             start_time := 0, duration := 1 } := by
  constructor <;> rfl

/-- C1 (amended): animations are keyed by note, not by position.
Re-registering a fade for the SAME note replaces that note's entry and
leaves all other notes' entries untouched; and in any table whose entries
were produced through the controller's note→LED mapping (which is
injective), distinct notes always hold distinct LED positions, so at most
one animation exists per position in controller-reachable states. -/
theorem animation_registry_note_keyed :
    (∀ (table : AnimTable) (note led : ℤ) (col : Color) (d now : ℚ),
      dictLookup note (add_fade_out note led col d now table) =
        some { type := "fade_out", led_index := led, start_color := col,
               start_time := now, duration := d } ∧
      (∀ n, n ≠ note →
        dictLookup n (add_fade_out note led col d now table) = dictLookup n table)) ∧
    (∀ (num_leds : ℕ) (table : AnimTable),
      (∀ p ∈ table, note_to_led_map num_leds p.1 = some p.2.led_index) →
      ∀ p ∈ table, ∀ q ∈ table, p.1 ≠ q.1 → p.2.led_index ≠ q.2.led_index) := by
  constructor
  · intro table note led col d now
    refine ⟨dictLookup_dictInsert_self note _ table, ?_⟩
    intro n hn
    exact dictLookup_dictInsert_ne note n hn _ table
  · intro num_leds table hwf p hp q hq hne heq
    have h1 := hwf p hp
    have h2 := hwf q hq
    rw [← heq] at h2
    exact hne (note_to_led_map_inj h1 h2)

/-- C4 counterexample: `set_brightness` with the out-of-range value 1.5 is
not rejected — it stores the clamped value 1, so the previously valid
brightness 0.8 is NOT retained. -/
theorem set_brightness_out_of_range_counterexample :
    testController.brightness = 4/5 ∧
    (set_brightness testController (3/2)).brightness = 1 ∧
    (set_brightness testController (3/2)).brightness ≠ testController.brightness := by
  refine ⟨rfl, ?_, ?_⟩ <;> norm_num [set_brightness, testController]

/-- C4 (amended): `set_brightness` clamps every input into [0,1] and stores
the clamped value: inputs above 1 store 1, inputs below 0 store 0, and
in-range inputs are stored unchanged; no input is rejected. -/
theorem set_brightness_clamps (c : LEDController) (b : ℚ) :
    (set_brightness c b).brightness = max 0 (min 1 b) ∧
    (1 < b → (set_brightness c b).brightness = 1) ∧
    (b < 0 → (set_brightness c b).brightness = 0) ∧
    (0 ≤ b → b ≤ 1 → (set_brightness c b).brightness = b) := by
  refine ⟨rfl, ?_, ?_, ?_⟩
  · intro h
    show max 0 (min 1 b) = 1
    rw [min_eq_left h.le, max_eq_right zero_le_one]
  · intro h
    show max 0 (min 1 b) = 0
    rw [max_eq_left ((min_le_right 1 b).trans h.le)]
  · intro h0 h1
    show max 0 (min 1 b) = b
    rw [min_eq_right h1, max_eq_right h0]

/-- C5 counterexample: with an animation whose duration has elapsed
(duration 1, tick at time 2), the first `tick()` reports black at LED 5 and
deletes the entry, so a second `tick()` at the same instant returns an empty
mapping — the two outputs differ. -/
theorem tick_drops_completed_counterexample :
    get_current_colors 2 tableC5 = ([(5, (0, 0, 0))], []) ∧
    get_current_colors 2 (get_current_colors 2 tableC5).2 = ([], []) ∧
    (get_current_colors 2 (get_current_colors 2 tableC5).2).1 ≠
      (get_current_colors 2 tableC5).1 := by
  have h1 : get_current_colors 2 tableC5 = ([(5, (0, 0, 0))], []) := by
    norm_num [get_current_colors, gccLoop, dictInsert, tableC5, List.filter, List.contains]
  have h2 : get_current_colors 2 (get_current_colors 2 tableC5).2 = ([], []) := by
    rw [h1]
    rfl
  refine ⟨h1, h2, ?_⟩
  rw [h2, h1]
  simp

/-- C5 (amended): `tick()` is idempotent at a fixed instant as long as every
animation in the table is still in progress (elapsed < duration): the table
is unchanged and a second call returns the identical output.  (When an
animation has completed, the first call reports black and deletes it, so the
second call omits that position — see the counterexample.) -/
theorem tick_second_call_identical (t : ℚ) (table : AnimTable)
    (h : ∀ p ∈ table, p.2.type = "fade_out" →
        0 < p.2.duration ∧ t - p.2.start_time < p.2.duration) :
    (get_current_colors t table).2 = table ∧
    get_current_colors t (get_current_colors t table).2 = get_current_colors t table := by
  have h' : ∀ p ∈ table, p.2.type = "fade_out" →
      (t - p.2.start_time) / p.2.duration < 1 :=
    fun p hp hk => (div_lt_one (h p hp hk).1).mpr (h p hp hk).2
  have h2 : (gccLoop t [] [] table).2 = [] := gccLoop_no_removals t table h' [] []
  have h3 : (get_current_colors t table).2 = table := by
    show table.filter (fun p => !(((gccLoop t [] [] table).2).contains p.1)) = table
    rw [h2]
    exact filter_not_contains_nil table
  exact ⟨h3, by rw [h3]⟩

theorem tick_second_call_identical_witness :
    (get_current_colors (1/2) tableC5).2 = tableC5 ∧
    get_current_colors (1/2) (get_current_colors (1/2) tableC5).2 =
      get_current_colors (1/2) tableC5 :=
  tick_second_call_identical (1/2) tableC5 (by
    intro p hp hk
    simp only [tableC5, List.mem_singleton] at hp
    subst hp
    norm_num)

/-- C6: a registered fade evaluated at time `t` with `elapsed = t - t0 < d`
yields the start color scaled channel-wise by `1 - elapsed/d` and truncated;
once `elapsed ≥ d` it yields exact black, the animation is removed, and any
subsequent tick omits the position. -/
theorem fade_registration_evaluation (note led : ℤ) (col : Color) (d t0 t : ℚ)
    (hd : 0 < d) :
    (t - t0 < d →
      get_current_colors t (add_fade_out note led col d t0 []) =
        ([(led, (pyInt ((col.1 : ℚ) * (1 - (t - t0) / d)),
                 pyInt ((col.2.1 : ℚ) * (1 - (t - t0) / d)),
                 pyInt ((col.2.2 : ℚ) * (1 - (t - t0) / d))))],
         add_fade_out note led col d t0 [])) ∧
    (d ≤ t - t0 →
      get_current_colors t (add_fade_out note led col d t0 []) = ([(led, (0, 0, 0))], []) ∧
      (∀ t2 : ℚ, get_current_colors t2 ([] : AnimTable) = ([], []))) := by
  constructor
  · intro hlt
    have hp : ¬ (1 ≤ (t - t0) / d) := not_le.mpr ((div_lt_one hd).mpr hlt)
    simp [get_current_colors, gccLoop, add_fade_out, dictInsert, scaleColor, hp,
      List.filter, List.contains]
  · intro hge
    have hp : 1 ≤ (t - t0) / d := (one_le_div hd).mpr hge
    refine ⟨?_, fun t2 => rfl⟩
    simp [get_current_colors, gccLoop, add_fade_out, dictInsert, hp,
      List.filter, List.contains]

theorem fade_registration_evaluation_witness :
    get_current_colors (1/2) (add_fade_out 60 5 (200, 100, 50) 1 0 []) =
      ([(5, (100, 50, 25))], add_fade_out 60 5 (200, 100, 50) 1 0 []) :=
  ((fade_registration_evaluation 60 5 (200, 100, 50) 1 0 (1/2) (by norm_num)).1
      (by norm_num)).trans (by norm_num [pyInt])

/-- C7: on a mapped NoteOff the fade-start color is read from the CURRENT
display state at the note's LED (not from any color computed at NoteOn):
with `fade_time > 0` a fade from that color is registered and the display is
untouched; with `fade_time ≤ 0` the LED slot is immediately set to black. -/
theorem note_off_reads_display_state (c : LEDController) (note led : ℤ)
    (fade_time now : ℚ) (hinit : c.is_initialized = true)
    (hmap : note_to_led_map c.num_leds note = some led) :
    (0 < fade_time →
      note_off c note fade_time now =
        ({ c with active_animations :=
            (add_fade_out note led (c.current_led_state.getD led.toNat (0, 0, 0))
              fade_time now c.active_animations) }, true)) ∧
    (fade_time ≤ 0 →
      note_off c note fade_time now = (set_led_color c led (0, 0, 0), true) ∧
      (set_led_color c led (0, 0, 0)).current_led_state =
        c.current_led_state.set led.toNat (0, 0, 0)) := by
  have hnotfalse : ¬ (c.is_initialized = false) := by simp [hinit]
  constructor
  · intro hf
    simp only [note_off, hmap, if_neg hnotfalse]
    rw [if_pos hf]
  · intro hf
    have hnf : ¬ (0 < fade_time) := not_lt.mpr hf
    simp only [note_off, hmap, if_neg hnotfalse]
    rw [if_neg hnf]
    refine ⟨rfl, ?_⟩
    obtain ⟨hb1, hb2, _⟩ := note_to_led_map_bounds hmap
    rw [set_led_color, if_neg (by omega)]

theorem note_off_reads_display_state_witness :
    note_off displayController 60 (1/2) 7 =
      ({ displayController with
          active_animations := add_fade_out 60 39 (12, 34, 56) (1/2) 7 [] }, true) :=
  ((note_off_reads_display_state displayController 60 39 (1/2) 7 rfl (by decide)).1
      (by norm_num)).trans (by rfl)

/-- C9: a NoteOn for a note with no LED mapping leaves the controller (and
hence every display slot) unchanged and the event payload is still emitted
to the broadcast sink. -/
theorem unmapped_note_on_broadcast (c : LEDController) (event : MIDIEvent)
    (now : ℚ) (n : ℤ) (htype : event.type = "note_on") (hnote : event.note = some n)
    (hmap : note_to_led_map c.num_leds n = none) :
    handle_midi_event (some c) event now =
      (some c, [{ type := event.type, note := event.note, velocity := event.velocity,
                  timestamp := event.timestamp }]) := by
  by_cases hinit : c.is_initialized
  · simp only [handle_midi_event]
    rw [if_pos hinit, if_pos ⟨htype, by rw [hnote]; simp⟩, hnote]
    simp only [Option.getD_some]
    rw [show note_on c n (pyOr64 event.velocity) = (c, false) from by
      simp [note_on, hmap, hinit]]
  · simp only [handle_midi_event]
    rw [if_neg hinit]

theorem unmapped_note_on_broadcast_witness :
    handle_midi_event (some testController)
        { type := "note_on", note := some 5, velocity := some 100, channel := 0,
          timestamp := 3, control := none, value := none } 9 =
      (some testController,
       [{ type := "note_on", note := some 5, velocity := some 100, timestamp := 3 }]) :=
  unmapped_note_on_broadcast testController
    { type := "note_on", note := some 5, velocity := some 100, channel := 0,
      timestamp := 3, control := none, value := none } 9 5 rfl rfl (by decide)

/-- C10: before initialization, `note_on` and `note_off` both return `False`
and change nothing (neither the display state nor the animation table). -/
theorem uninitialized_note_events_noop (c : LEDController)
    (h : c.is_initialized = false) (note velocity : ℤ) (fade_time now : ℚ) :
    note_on c note velocity = (c, false) ∧ note_off c note fade_time now = (c, false) :=
  ⟨by simp [note_on, h], by simp [note_off, h]⟩

theorem uninitialized_note_events_noop_witness :
    note_on uninitController 60 64 = (uninitController, false) ∧
    note_off uninitController 60 (1/2) 0 = (uninitController, false) :=
  uninitialized_note_events_noop uninitController rfl 60 64 (1/2) 0

/-- C2 counterexample: between adjacent velocities 63 and 64 the blue
channel of the velocity scheme drops from 255 to 252 — a jump of 3 units in
one velocity step, violating the claimed ≤ 1 unit per step. -/
theorem velocity_midpoint_step_counterexample :
    _velocity_scheme 60 63 = (0, 252, 255) ∧
    _velocity_scheme 60 64 = (2, 252, 252) ∧
    (_velocity_scheme 60 63).2.2 - (_velocity_scheme 60 64).2.2 = 3 ∧
    ¬ ((_velocity_scheme 60 63).2.2 - (_velocity_scheme 60 64).2.2 ≤ 1) := by
  have h63 : _velocity_scheme 60 63 = (0, 252, 255) := by norm_num [_velocity_scheme, pyInt]
  have h64 : _velocity_scheme 60 64 = (2, 252, 252) := by norm_num [_velocity_scheme, pyInt]
  refine ⟨h63, h64, ?_, ?_⟩ <;> rw [h63, h64] <;> norm_num

/-- C2 (amended): the velocity scheme returns (0,0,255) at velocity 0 and
(255,0,0) at velocity 127; it truncates the piecewise-linear interpolation
`velocity_scheme_q`, which IS continuous at the normalized midpoint 1/2 in
the ε-δ sense — but the discrete per-step changes reach several units per
channel (blue falls by 3 from v=63 to v=64), so no ≤1-unit-per-step bound
holds. -/
theorem velocity_scheme_endpoints_and_midpoint :
    (∀ note : ℤ, _velocity_scheme note 0 = (0, 0, 255)) ∧
    (∀ note : ℤ, _velocity_scheme note 127 = (255, 0, 0)) ∧
    (∀ note velocity : ℤ, _velocity_scheme note velocity =
        pyTriple (velocity_scheme_q ((velocity : ℚ) / 127))) ∧
    (∀ ε : ℚ, 0 < ε → ∃ δ : ℚ, 0 < δ ∧ ∀ vn : ℚ, |vn - 1/2| < δ →
        |(velocity_scheme_q vn).1 - (velocity_scheme_q (1/2)).1| < ε ∧
        |(velocity_scheme_q vn).2.1 - (velocity_scheme_q (1/2)).2.1| < ε ∧
        |(velocity_scheme_q vn).2.2 - (velocity_scheme_q (1/2)).2.2| < ε) := by
  refine ⟨?_, ?_, ?_, ?_⟩
  · intro note
    norm_num [_velocity_scheme, pyInt]
  · intro note
    norm_num [_velocity_scheme, pyInt]
  · intro note velocity
    simp only [_velocity_scheme, velocity_scheme_q, pyTriple]
    split <;> simp
  · intro ε hε
    refine ⟨ε/510, by positivity, ?_⟩
    intro vn hvn
    rw [abs_lt] at hvn
    have hval : velocity_scheme_q (1/2) = (0, 255, 255) := by norm_num [velocity_scheme_q]
    rw [hval]
    by_cases h : vn < 1/2
    · simp only [velocity_scheme_q, if_pos h]
      refine ⟨by simpa using hε, ?_, by simpa using hε⟩
      rw [abs_lt]
      constructor <;> linarith [hvn.1, hvn.2]
    · simp only [velocity_scheme_q, if_neg h]
      refine ⟨?_, ?_, ?_⟩ <;>
        · rw [abs_lt]
          constructor <;> linarith [hvn.1, hvn.2]

/-- C3 counterexample: the fire gradient jumps by 117 units in the red
channel across the 0.3 breakpoint (velocities 38→39), and the ocean
gradient jumps by 119 units in the blue channel across the 0.4 breakpoint
(velocities 50→51) — the segment boundaries at 0.3 (fire) and 0.4 (ocean)
are NOT continuous. -/
theorem fire_ocean_boundary_jump_counterexample :
    _fire_scheme 60 38 = (138, 0, 0) ∧
    _fire_scheme 60 39 = (255, 2, 0) ∧
    (_fire_scheme 60 39).1 - (_fire_scheme 60 38).1 = 117 ∧
    _ocean_scheme 60 50 = (0, 0, 136) ∧
    _ocean_scheme 60 51 = (0, 1, 255) ∧
    (_ocean_scheme 60 51).2.2 - (_ocean_scheme 60 50).2.2 = 119 := by
  have hf38 : _fire_scheme 60 38 = (138, 0, 0) := by norm_num [_fire_scheme, pyInt]
  have hf39 : _fire_scheme 60 39 = (255, 2, 0) := by norm_num [_fire_scheme, pyInt]
  have ho50 : _ocean_scheme 60 50 = (0, 0, 136) := by norm_num [_ocean_scheme, pyInt]
  have ho51 : _ocean_scheme 60 51 = (0, 1, 255) := by norm_num [_ocean_scheme, pyInt]
  refine ⟨hf38, hf39, ?_, ho50, ho51, ?_⟩
  · rw [hf38, hf39]
    norm_num
  · rw [ho50, ho51]
    norm_num

/-- C3 (amended): fire and ocean truncate the piecewise formulas
`fire_scheme_q` / `ocean_scheme_q`; those formulas are continuous (ε-δ) at
the SECOND breakpoints (0.7 for fire, 0.8 for ocean) but discontinuous at
the FIRST breakpoints, with jumps exceeding 100 units (red 139→255 at
fire's 0.3; blue 139→255 at ocean's 0.4). -/
theorem fire_ocean_segment_boundaries :
    (∀ note velocity : ℤ, _fire_scheme note velocity =
        pyTriple (fire_scheme_q ((velocity : ℚ) / 127))) ∧
    (∀ note velocity : ℤ, _ocean_scheme note velocity =
        pyTriple (ocean_scheme_q ((velocity : ℚ) / 127))) ∧
    (∀ ε : ℚ, 0 < ε → ∃ δ : ℚ, 0 < δ ∧ ∀ vn : ℚ, |vn - 7/10| < δ →
        |(fire_scheme_q vn).1 - (fire_scheme_q (7/10)).1| < ε ∧
        |(fire_scheme_q vn).2.1 - (fire_scheme_q (7/10)).2.1| < ε ∧
        |(fire_scheme_q vn).2.2 - (fire_scheme_q (7/10)).2.2| < ε) ∧
    (∀ ε : ℚ, 0 < ε → ∃ δ : ℚ, 0 < δ ∧ ∀ vn : ℚ, |vn - 8/10| < δ →
        |(ocean_scheme_q vn).1 - (ocean_scheme_q (8/10)).1| < ε ∧
        |(ocean_scheme_q vn).2.1 - (ocean_scheme_q (8/10)).2.1| < ε ∧
        |(ocean_scheme_q vn).2.2 - (ocean_scheme_q (8/10)).2.2| < ε) ∧
    (∀ δ : ℚ, 0 < δ → ∃ vn : ℚ, |vn - 3/10| < δ ∧
        100 < |(fire_scheme_q vn).1 - (fire_scheme_q (3/10)).1|) ∧
    (∀ δ : ℚ, 0 < δ → ∃ vn : ℚ, |vn - 4/10| < δ ∧
        100 < |(ocean_scheme_q vn).2.2 - (ocean_scheme_q (4/10)).2.2|) := by
  refine ⟨?_, ?_, ?_, ?_, ?_, ?_⟩
  · intro note velocity
    simp only [_fire_scheme, fire_scheme_q, pyTriple]
    split
    · simp
    · split <;> simp
  · intro note velocity
    simp only [_ocean_scheme, ocean_scheme_q, pyTriple]
    split
    · simp
    · split <;> simp
  · intro ε hε
    refine ⟨min (ε/1000) (1/10), lt_min (by positivity) (by norm_num), ?_⟩
    intro vn hvn
    have h1 : |vn - 7/10| < ε/1000 := lt_of_lt_of_le hvn (min_le_left _ _)
    have h2 : |vn - 7/10| < 1/10 := lt_of_lt_of_le hvn (min_le_right _ _)
    rw [abs_lt] at h1 h2
    have hval : fire_scheme_q (7/10) = (255, 165, 0) := by norm_num [fire_scheme_q]
    rw [hval]
    have hn3 : ¬ (vn < 3/10) := by intro hc; linarith [h2.1]
    by_cases h7 : vn < 7/10
    · simp only [fire_scheme_q, if_neg hn3, if_pos h7]
      refine ⟨by simpa using hε, ?_, by simpa using hε⟩
      have heq : 165 * ((vn - 3/10) / (4/10)) - 165 = 825/2 * (vn - 7/10) := by ring
      rw [heq, abs_lt]
      constructor <;> linarith [h1.1, h1.2]
    · simp only [fire_scheme_q, if_neg hn3, if_neg h7]
      refine ⟨by simpa using hε, ?_, ?_⟩
      · have heq : 165 + 90 * ((vn - 7/10) / (3/10)) - 165 = 300 * (vn - 7/10) := by ring
        rw [heq, abs_lt]
        constructor <;> linarith [h1.1, h1.2]
      · have heq : 255 * ((vn - 7/10) / (3/10)) - 0 = 850 * (vn - 7/10) := by ring
        rw [heq, abs_lt]
        constructor <;> linarith [h1.1, h1.2]
  · intro ε hε
    refine ⟨min (ε/2000) (1/10), lt_min (by positivity) (by norm_num), ?_⟩
    intro vn hvn
    have h1 : |vn - 8/10| < ε/2000 := lt_of_lt_of_le hvn (min_le_left _ _)
    have h2 : |vn - 8/10| < 1/10 := lt_of_lt_of_le hvn (min_le_right _ _)
    rw [abs_lt] at h1 h2
    have hval : ocean_scheme_q (8/10) = (0, 255, 255) := by norm_num [ocean_scheme_q]
    rw [hval]
    have hn4 : ¬ (vn < 4/10) := by intro hc; linarith [h2.1]
    by_cases h8 : vn < 8/10
    · simp only [ocean_scheme_q, if_neg hn4, if_pos h8]
      refine ⟨by simpa using hε, ?_, by simpa using hε⟩
      have heq : 255 * ((vn - 4/10) / (4/10)) - 255 = 1275/2 * (vn - 8/10) := by ring
      rw [heq, abs_lt]
      constructor <;> linarith [h1.1, h1.2]
    · simp only [ocean_scheme_q, if_neg hn4, if_neg h8]
      refine ⟨?_, ?_, ?_⟩
      · have heq : 255 * ((vn - 8/10) / (2/10)) - 0 = 1275 * (vn - 8/10) := by ring
        rw [heq, abs_lt]
        constructor <;> linarith [h1.1, h1.2]
      · have heq : 255 - 55 * ((vn - 8/10) / (2/10)) - 255 = -275 * (vn - 8/10) := by ring
        rw [heq, abs_lt]
        constructor <;> linarith [h1.1, h1.2]
      · have heq : 255 - 55 * ((vn - 8/10) / (2/10)) - 255 = -275 * (vn - 8/10) := by ring
        rw [heq, abs_lt]
        constructor <;> linarith [h1.1, h1.2]
  · intro δ hδ
    have hm0 : 0 < min δ 1 := lt_min hδ one_pos
    refine ⟨3/10 - min δ 1 / 2, ?_, ?_⟩
    · have heq : (3/10 - min δ 1 / 2) - 3/10 = -(min δ 1 / 2) := by ring
      rw [heq, abs_neg, abs_of_pos (by positivity)]
      have : min δ 1 ≤ δ := min_le_left _ _
      linarith
    · have hval : fire_scheme_q (3/10) = (255, 0, 0) := by norm_num [fire_scheme_q]
      rw [hval]
      have hlt : (3/10 : ℚ) - min δ 1 / 2 < 3/10 := by linarith
      simp only [fire_scheme_q, if_pos hlt]
      have heq : 139 * (3/10 - min δ 1 / 2) / (3/10) - 255 = -116 - 695/3 * min δ 1 := by
        ring
      rw [heq, abs_of_neg (by linarith)]
      linarith
  · intro δ hδ
    have hm0 : 0 < min δ 1 := lt_min hδ one_pos
    refine ⟨4/10 - min δ 1 / 2, ?_, ?_⟩
    · have heq : (4/10 - min δ 1 / 2) - 4/10 = -(min δ 1 / 2) := by ring
      rw [heq, abs_neg, abs_of_pos (by positivity)]
      have : min δ 1 ≤ δ := min_le_left _ _
      linarith
    · have hval : ocean_scheme_q (4/10) = (0, 0, 255) := by norm_num [ocean_scheme_q]
      rw [hval]
      have hlt : (4/10 : ℚ) - min δ 1 / 2 < 4/10 := by linarith
      simp only [ocean_scheme_q, if_pos hlt]
      have heq : 139 * ((4/10 - min δ 1 / 2) / (4/10)) - 255 = -116 - 695/4 * min δ 1 := by
        ring
      rw [heq, abs_of_neg (by linarith)]
      linarith

/-- C8 counterexample: `simulate_note_on` with velocity 0 produces a
`note_on` event carrying velocity 0 and hands it to the coordinator
callback — it is NOT normalized to a NoteOff at this ingest path. -/
theorem simulate_note_on_velocity_zero_counterexample :
    (simulate_note_on 60 0 0 0).type = "note_on" ∧
    (simulate_note_on 60 0 0 0).velocity = some 0 := ⟨rfl, rfl⟩

/-- C8 (amended): the hardware ingest path (`_midi_callback`) normalizes a
Note On status byte with velocity byte 0 to a `note_off` event, but the
simulation ingest path (`simulate_note_on`) performs no such normalization:
it emits a `note_on` with velocity 0, which the coordinator then treats as a
note-on with substituted velocity 64 (`event.velocity or 64`). -/
theorem velocity_zero_ingest_paths :
    (∀ (ch note : ℕ) (now : ℚ), ch < 16 →
      midi_callback [144 + ch, note, 0] now =
        some { type := "note_off", note := some (note : ℤ), velocity := none,
               channel := (ch : ℤ), timestamp := now, control := none, value := none }) ∧
    (∀ (note velocity channel : ℤ) (now : ℚ),
      simulate_note_on note velocity channel now =
        { type := "note_on", note := some note, velocity := some velocity,
          channel := channel, timestamp := now, control := none, value := none }) ∧
    (∀ (c : LEDController) (n channel : ℤ) (now tsim : ℚ), c.is_initialized = true →
      handle_midi_event (some c) (simulate_note_on n 0 channel tsim) now =
        (some (note_on c n 64).1,
         [{ type := "note_on", note := some n, velocity := some 0, timestamp := tsim }])) := by
  refine ⟨?_, fun note velocity channel now => rfl, ?_⟩
  · intro ch note now hch
    have h1 : (144 + ch) &&& 240 = 144 := by interval_cases ch <;> rfl
    have h2 : (144 + ch) &&& 15 = ch := by interval_cases ch <;> rfl
    simp [midi_callback, h1, h2]
  · intro c n channel now tsim hinit
    simp [handle_midi_event, simulate_note_on, pyOr64, hinit]
